import Mathlib

/-!
Shallow embedding of the telecom billing anomaly detector
(`billing_anomaly.py`): the column resolver `find_similar_column` and the
rule engine `detect_anomalies` with its four anomaly rules.

Modelling choices:
* a cell value is either a string or a rational number (`Val`); a record is
  an association list from column name to value;
* the Python `str.lower` is `lowerStr`, `str.capitalize` is `capitalize`
  (first character upper-cased, the rest lower-cased, ASCII);
* a Python run that raises an exception (`TypeError` on arithmetic with a
  non-number, `AttributeError` on `.lower`/`.capitalize` of a non-string)
  is an `Except.error`; loops that may raise are folded with `filterE`;
* `pandas.unique` is `uniqueList` (first-occurrence order),
  `DataFrame.duplicated(keep=False)` keeps every member of a group of
  size ≥ 2, and boolean-mask filtering preserves row order (`List.filter`).
-/

/-- A scalar cell value of the dataset: a string or a number. -/
inductive Val where
  | str : String → Val
  | num : ℚ → Val
deriving DecidableEq, Repr

/-- A record: one row of the dataset, an association list from column name
to cell value (`row.to_dict()` in the source). -/
abbrev Record := List (String × Val)

/-- Field access `row[col]`: the first binding of column `c` in record `r`. -/
def getVal (r : Record) (c : String) : Option Val :=
  (r.find? (fun p => p.1 == c)).map (fun p => p.2)

/-- A dataset: its column headers and its ordered rows. -/
structure DataFrame where
  cols : List String
  rows : List Record

/-- Python `s.lower()` (ASCII): every character lower-cased. -/
def lowerStr (s : String) : String :=
  String.mk (s.data.map Char.toLower)

/-- Python `s.capitalize()`: first character upper-cased, the rest
lower-cased; the empty string is unchanged. -/
def capitalize (s : String) : String :=
  match s.data with
  | [] => ""
  | c :: cs => String.mk (Char.toUpper c :: cs.map Char.toLower)

/-- `find_similar_column(columns, target)`: the first column whose name is
case-insensitively equal to `target`, else `none`. -/
def find_similar_column (columns : List String) (target : String) : Option String :=
  columns.find? (fun column => lowerStr column == lowerStr target)

/-- The per-plan unit rates dictionary of the High or Low Billings rule. -/
def rates : List (String × ℚ) := [("Basic", 0.20), ("Standard", 0.15), ("Ultra", 0.10)]

/-- `rates.get(p, 0)`: dictionary lookup with default 0. -/
def ratesGet (p : String) : ℚ :=
  match rates.find? (fun kv => kv.1 == p) with
  | some kv => kv.2
  | none => 0

/-- A filtering loop whose per-element test may raise: the first raised
error aborts the whole loop, as an uncaught Python exception does. -/
def filterE {α : Type} (p : α → Except String Bool) : List α → Except String (List α)
  | [] => Except.ok []
  | a :: l =>
    match p a with
    | Except.error e => Except.error e
    | Except.ok b =>
      match filterE p l with
      | Except.error e => Except.error e
      | Except.ok l2 => Except.ok (if b then a :: l2 else l2)

/-- `pandas.unique`: distinct values in first-occurrence order. -/
def uniqueList {α : Type} [DecidableEq α] (l : List α) : List α :=
  l.foldl (fun acc a => if a ∈ acc then acc else acc ++ [a]) []

/-- The grouping key of the Duplicate Billings rule: the pair of the
Customer ID value and the Date value of a record. -/
def dupKey (cid d : String) (r : Record) : Option Val × Option Val :=
  (getVal r cid, getVal r d)

/-- `df[df.duplicated(subset=[cid, d], keep=False)]`: every row whose
(Customer ID, Date) pair occurs at least twice in the dataset. -/
def duplicate_billings (rows : List Record) (cid d : String) : List Record :=
  rows.filter (fun r =>
    decide (2 ≤ rows.countP (fun s => decide (dupKey cid d s = dupKey cid d r))))

/-- The per-row test of the High or Low Billings rule:
`abs(row[ba] - row[du] * rates.get(row[pt].capitalize(), 0)) > 0.01`.
A non-numeric usage or billing amount, or a non-string plan type, raises. -/
def highLowRow (du pt ba : String) (r : Record) : Except String Bool :=
  match getVal r du, getVal r pt, getVal r ba with
  | some (Val.num u), some (Val.str p), some (Val.num b) =>
      Except.ok (decide ((0.01 : ℚ) < |b - u * ratesGet (capitalize p)|))
  | _, _, _ => Except.error "TypeError"

/-- The High or Low Billings rule: the rows failing the expected-amount
check, in dataset order. -/
def high_or_low_billings (rows : List Record) (du pt ba : String) :
    Except String (List Record) :=
  filterE (highLowRow du pt ba) rows

/-- The fixed list of valid service types. -/
def valid_service_types : List String := ["Data", "Voice"]

/-- The test applied to each distinct observed service-type value:
`st.lower() not in [vst.lower() for vst in valid_service_types]`.
A non-string value raises (`AttributeError` on `.lower`). -/
def serviceInvalid (v : Option Val) : Except String Bool :=
  match v with
  | some (Val.str s) =>
      Except.ok (decide (lowerStr s ∉ valid_service_types.map (fun vst => lowerStr vst)))
  | _ => Except.error "AttributeError"

/-- The Invalid Service Types rule: compute the distinct observed
service-type values, keep the invalid ones, and flag every row whose
service-type value is one of them (`isin`). -/
def invalid_service_types_rule (rows : List Record) (st : String) :
    Except String (List Record) :=
  match filterE serviceInvalid (uniqueList (rows.map (fun r => getVal r st))) with
  | Except.error e => Except.error e
  | Except.ok invalid =>
      Except.ok (rows.filter (fun r => decide (getVal r st ∈ invalid)))

/-- `df[col].str.lower() == t` for one cell: true when the cell is the
string `t` up to case; a non-string cell compares unequal (pandas yields
NaN for it, which the equality mask treats as false). -/
def strLowerEq (v : Option Val) (t : String) : Bool :=
  match v with
  | some (Val.str s) => lowerStr s == t
  | _ => false

/-- The Billing for Suspended Accounts rule: rows whose Account Status is
"suspended" and Payment Status is "pending", case-insensitively. -/
def suspended_accounts (rows : List Record) (ac ps : String) : List Record :=
  rows.filter (fun r =>
    strLowerEq (getVal r ac) "suspended" && strLowerEq (getVal r ps) "pending")

/-- The report: one ordered list of flagged records per anomaly category. -/
structure AnomalyReport where
  duplicateBillings : List Record
  highOrLowBillings : List Record
  invalidServiceTypes : List Record
  billingForSuspendedAccounts : List Record
deriving Repr

/-- The Duplicate Billings category of `detect_anomalies`: run only when
both required roles resolve, else empty. -/
def dupRule (df : DataFrame) : List Record :=
  match find_similar_column df.cols "Customer ID",
      find_similar_column df.cols "Date" with
  | some cid, some d => duplicate_billings df.rows cid d
  | _, _ => []

/-- The High or Low Billings category of `detect_anomalies`: run only when
all three required roles resolve, else empty. -/
def highLowRule (df : DataFrame) : Except String (List Record) :=
  match find_similar_column df.cols "Data Usage (GB)",
      find_similar_column df.cols "Plan Type",
      find_similar_column df.cols "Billing Amount" with
  | some du, some pt, some ba => high_or_low_billings df.rows du pt ba
  | _, _, _ => Except.ok []

/-- The Invalid Service Types category of `detect_anomalies`: run only when
the Service Type role resolves, else empty. -/
def serviceRule (df : DataFrame) : Except String (List Record) :=
  match find_similar_column df.cols "Service Type" with
  | some st => invalid_service_types_rule df.rows st
  | none => Except.ok []

/-- The Billing for Suspended Accounts category of `detect_anomalies`: run
only when both required roles resolve, else empty. -/
def suspendedRule (df : DataFrame) : List Record :=
  match find_similar_column df.cols "Account Status",
      find_similar_column df.cols "Payment Status" with
  | some ac, some ps => suspended_accounts df.rows ac ps
  | _, _ => []

/-- `detect_anomalies(df, criteria)`: resolve the roles, evaluate the four
rules, and assemble the report. The `criteria` text from the external
service is never consulted. An exception in the High or Low Billings loop
or in the Invalid Service Types computation aborts the run. -/
def detect_anomalies (df : DataFrame) (criteria : String) :
    Except String AnomalyReport :=
  match highLowRule df with
  | Except.error e => Except.error e
  | Except.ok hl =>
    match serviceRule df with
    | Except.error e => Except.error e
    | Except.ok ist =>
      Except.ok
        { duplicateBillings := dupRule df
          highOrLowBillings := hl
          invalidServiceTypes := ist
          billingForSuspendedAccounts := suspendedRule df }

/-! Concrete example data, used to witness the theorems below. `exDf` is the
end-to-end example dataset of the design document, extended with a third
row whose plan type is unrecognized. -/

/-- Example row 1: billing amount exactly matches 50 GB at the Basic rate. -/
def exR1 : Record :=
  [("Customer ID", Val.str "A1"), ("Date", Val.str "2024-01-01"),
   ("Billing Amount", Val.num 10), ("Service Type", Val.str "Data"),
   ("Data Usage (GB)", Val.num 50), ("Account Status", Val.str "Active"),
   ("Plan Type", Val.str "Basic"), ("Payment Status", Val.str "Paid")]

/-- Example row 2: same customer and date as row 1, billing amount off by 2. -/
def exR2 : Record :=
  [("Customer ID", Val.str "A1"), ("Date", Val.str "2024-01-01"),
   ("Billing Amount", Val.num 12), ("Service Type", Val.str "Data"),
   ("Data Usage (GB)", Val.num 50), ("Account Status", Val.str "Active"),
   ("Plan Type", Val.str "Basic"), ("Payment Status", Val.str "Paid")]

/-- Example row 3: unrecognized plan "Gold", billing amount 0.01, invalid
service type "Fax", suspended account with pending payment. -/
def exR3 : Record :=
  [("Customer ID", Val.str "B2"), ("Date", Val.str "2024-01-02"),
   ("Billing Amount", Val.num 0.01), ("Service Type", Val.str "Fax"),
   ("Data Usage (GB)", Val.num 5), ("Account Status", Val.str "SUSPENDED"),
   ("Plan Type", Val.str "Gold"), ("Payment Status", Val.str "Pending")]

/-- The example dataset: all eight roles resolve, three rows. -/
def exDf : DataFrame :=
  { cols := ["Customer ID", "Date", "Billing Amount", "Service Type",
             "Data Usage (GB)", "Account Status", "Plan Type", "Payment Status"],
    rows := [exR1, exR2, exR3] }

/-- The report `detect_anomalies` produces on `exDf`. -/
def exRep : AnomalyReport :=
  { duplicateBillings := [exR1, exR2]
    highOrLowBillings := [exR2]
    invalidServiceTypes := [exR3]
    billingForSuspendedAccounts := [exR3] }

/-- A dataset none of whose headers matches any role. -/
def noRoleDf : DataFrame :=
  { cols := ["Foo"], rows := [[("Foo", Val.str "x")]] }

/-- A row whose billing amount is the string "N/A" rather than a number. -/
def badBillingRow : Record :=
  [("Data Usage (GB)", Val.num 5), ("Plan Type", Val.str "Basic"),
   ("Billing Amount", Val.str "N/A")]

/-- A dataset with a malformed (non-numeric) billing amount. -/
def badBillingDf : DataFrame :=
  { cols := ["Data Usage (GB)", "Plan Type", "Billing Amount"],
    rows := [badBillingRow] }

/-- A dataset with a malformed (non-string) service type. -/
def badServiceDf : DataFrame :=
  { cols := ["Service Type"], rows := [[("Service Type", Val.num 3)]] }

/-! General lemmas about the building blocks of the embedding. -/

theorem filterE_ok_mem {α : Type} {p : α → Except String Bool} :
    ∀ {l out : List α}, filterE p l = Except.ok out →
      ∀ x, x ∈ out ↔ x ∈ l ∧ p x = Except.ok true := by
  intro l
  induction l with
  | nil =>
    intro out h x
    simp only [filterE, Except.ok.injEq] at h
    subst h
    simp
  | cons a l ih =>
    intro out h x
    simp only [filterE] at h
    cases hpa : p a with
    | error e => rw [hpa] at h; cases h
    | ok b =>
      rw [hpa] at h
      cases hrec : filterE p l with
      | error e => rw [hrec] at h; cases h
      | ok l2 =>
        rw [hrec] at h
        cases b with
        | true =>
          have hout : out = a :: l2 := by simpa using h.symm
          subst hout
          simp only [List.mem_cons, ih hrec x]
          constructor
          · rintro (rfl | ⟨hx, hpx⟩)
            · exact ⟨Or.inl rfl, hpa⟩
            · exact ⟨Or.inr hx, hpx⟩
          · rintro ⟨rfl | hx, hpx⟩
            · exact Or.inl rfl
            · exact Or.inr ⟨hx, hpx⟩
        | false =>
          have hout : out = l2 := by simpa using h.symm
          subst hout
          simp only [List.mem_cons, ih hrec x]
          constructor
          · rintro ⟨hx, hpx⟩
            exact ⟨Or.inr hx, hpx⟩
          · rintro ⟨rfl | hx, hpx⟩
            · simp [hpa] at hpx
            · exact ⟨hx, hpx⟩

theorem filterE_ok_sublist {α : Type} {p : α → Except String Bool} :
    ∀ {l out : List α}, filterE p l = Except.ok out → out.Sublist l := by
  intro l
  induction l with
  | nil =>
    intro out h
    simp only [filterE, Except.ok.injEq] at h
    subst h
    exact List.Sublist.refl _
  | cons a l ih =>
    intro out h
    simp only [filterE] at h
    cases hpa : p a with
    | error e => rw [hpa] at h; cases h
    | ok b =>
      rw [hpa] at h
      cases hrec : filterE p l with
      | error e => rw [hrec] at h; cases h
      | ok l2 =>
        rw [hrec] at h
        cases b with
        | true =>
          have hout : out = a :: l2 := by simpa using h.symm
          subst hout
          exact List.Sublist.cons₂ a (ih hrec)
        | false =>
          have hout : out = l2 := by simpa using h.symm
          subst hout
          exact List.Sublist.cons a (ih hrec)

theorem filterE_error_of_mem {α : Type} {p : α → Except String Bool} {x : α} {e : String} :
    ∀ {l : List α}, x ∈ l → p x = Except.error e →
      ∃ e2, filterE p l = Except.error e2 := by
  intro l
  induction l with
  | nil => intro h; cases h
  | cons a l ih =>
    intro hx hpx
    rcases List.mem_cons.mp hx with rfl | hx
    · exact ⟨e, by simp only [filterE, hpx]⟩
    · cases hpa : p a with
      | error e3 => exact ⟨e3, by simp only [filterE, hpa]⟩
      | ok b =>
        obtain ⟨e2, he2⟩ := ih hx hpx
        exact ⟨e2, by simp only [filterE, hpa, he2]⟩

theorem mem_uniqueList {α : Type} [DecidableEq α] (l : List α) (x : α) :
    x ∈ uniqueList l ↔ x ∈ l := by
  have key : ∀ (l : List α) (acc : List α),
      x ∈ l.foldl (fun acc a => if a ∈ acc then acc else acc ++ [a]) acc ↔
        x ∈ acc ∨ x ∈ l := by
    intro l
    induction l with
    | nil => intro acc; simp
    | cons a l ih =>
      intro acc
      simp only [List.foldl_cons, ih, List.mem_cons]
      by_cases ha : a ∈ acc
      · rw [if_pos ha]
        constructor
        · rintro (hx | hx)
          · exact Or.inl hx
          · exact Or.inr (Or.inr hx)
        · rintro (hx | rfl | hx)
          · exact Or.inl hx
          · exact Or.inl ha
          · exact Or.inr hx
      · rw [if_neg ha]
        simp only [List.mem_append, List.mem_singleton]
        tauto
  simpa using key l []

theorem two_le_countP_of_getElem {α : Type} (p : α → Bool) :
    ∀ (l : List α) (i j : ℕ) (hi : i < l.length) (hj : j < l.length),
      i ≠ j → p (l.get ⟨i, hi⟩) = true → p (l.get ⟨j, hj⟩) = true →
      2 ≤ l.countP p := by
  intro l
  induction l with
  | nil => intro i j hi; simp at hi
  | cons a l ih =>
    intro i j hi hj hij hpi hpj
    match i, j with
    | 0, 0 => exact absurd rfl hij
    | 0, j + 1 =>
      have hpa : p a = true := hpi
      have hpl : p (l.get ⟨j, Nat.lt_of_succ_lt_succ hj⟩) = true := hpj
      rw [List.countP_cons, if_pos hpa]
      have h1 : 0 < l.countP p :=
        List.countP_pos_iff.mpr ⟨l.get ⟨j, Nat.lt_of_succ_lt_succ hj⟩, List.get_mem _ _ _, hpl⟩
      omega
    | i + 1, 0 =>
      have hpa : p a = true := hpj
      have hpl : p (l.get ⟨i, Nat.lt_of_succ_lt_succ hi⟩) = true := hpi
      rw [List.countP_cons, if_pos hpa]
      have h1 : 0 < l.countP p :=
        List.countP_pos_iff.mpr ⟨l.get ⟨i, Nat.lt_of_succ_lt_succ hi⟩, List.get_mem _ _ _, hpl⟩
      omega
    | i + 1, j + 1 =>
      have hpi2 : p (l.get ⟨i, Nat.lt_of_succ_lt_succ hi⟩) = true := hpi
      have hpj2 : p (l.get ⟨j, Nat.lt_of_succ_lt_succ hj⟩) = true := hpj
      have h1 := ih i j (Nat.lt_of_succ_lt_succ hi) (Nat.lt_of_succ_lt_succ hj)
        (fun h => hij (by omega)) hpi2 hpj2
      rw [List.countP_cons]
      omega

theorem countP_le_one_of_unique {α : Type} (p : α → Bool) :
    ∀ (l : List α) (i : ℕ) (hi : i < l.length),
      (∀ j (hj : j < l.length), j ≠ i → p (l.get ⟨j, hj⟩) = false) →
      l.countP p ≤ 1 := by
  intro l
  induction l with
  | nil => intro i hi; simp at hi
  | cons a l ih =>
    intro i hi hall
    match i with
    | 0 =>
      have h0 : l.countP p = 0 := by
        rw [List.countP_eq_zero]
        intro x hx
        obtain ⟨j, rfl⟩ := List.mem_iff_get.mp hx
        have h2 : p (l.get ⟨j.val, j.isLt⟩) = false :=
          hall (j.val + 1) (Nat.succ_lt_succ j.isLt) (Nat.succ_ne_zero j.val)
        simp only [Fin.eta] at h2
        simpa using h2
      rw [List.countP_cons, h0]
      split <;> omega
    | i + 1 =>
      have ha : p a = false := hall 0 (Nat.succ_pos _) (Nat.succ_ne_zero i).symm
      have h1 := ih i (Nat.lt_of_succ_lt_succ hi) (fun j hj hji =>
        hall (j + 1) (Nat.succ_lt_succ hj) (fun h => hji (Nat.succ_injective h)))
      rw [List.countP_cons, ha]
      simp only [Bool.false_eq_true, if_false]
      omega

theorem detect_ok_iff (df : DataFrame) (c : String) (rep : AnomalyReport) :
    detect_anomalies df c = Except.ok rep ↔
      ∃ hl ist, highLowRule df = Except.ok hl ∧ serviceRule df = Except.ok ist ∧
        rep = ⟨dupRule df, hl, ist, suspendedRule df⟩ := by
  unfold detect_anomalies
  cases h1 : highLowRule df with
  | error e => simp [h1]
  | ok hl =>
    cases h2 : serviceRule df with
    | error e => simp
    | ok ist =>
      constructor
      · intro h
        simp only [Except.ok.injEq] at h
        exact ⟨hl, ist, rfl, rfl, h.symm⟩
      · rintro ⟨hl2, ist2, hhl, hist, rfl⟩
        simp only [Except.ok.injEq] at hhl hist
        subst hhl; subst hist
        rfl

theorem ratesGet_eq (p : String) :
    ratesGet p = if p = "Basic" then 0.20 else if p = "Standard" then 0.15
      else if p = "Ultra" then 0.10 else 0 := by
  by_cases h1 : p = "Basic"
  · subst h1; rfl
  · by_cases h2 : p = "Standard"
    · subst h2; rfl
    · by_cases h3 : p = "Ultra"
      · subst h3; rfl
      · have hf : rates.find? (fun kv => kv.1 == p) = none := by
          rw [List.find?_eq_none]
          intro kv hkv
          simp only [rates, List.mem_cons, List.not_mem_nil, or_false] at hkv
          rcases hkv with rfl | rfl | rfl
          · simp only [beq_iff_eq]; intro hk; exact h1 hk.symm
          · simp only [beq_iff_eq]; intro hk; exact h2 hk.symm
          · simp only [beq_iff_eq]; intro hk; exact h3 hk.symm
        unfold ratesGet
        rw [hf, if_neg h1, if_neg h2, if_neg h3]

/-! Characterizations of the four rule results under resolved roles. -/

theorem highLowRule_resolved {df : DataFrame} {du pt ba : String}
    (hdu : find_similar_column df.cols "Data Usage (GB)" = some du)
    (hpt : find_similar_column df.cols "Plan Type" = some pt)
    (hba : find_similar_column df.cols "Billing Amount" = some ba) :
    highLowRule df = high_or_low_billings df.rows du pt ba := by
  unfold highLowRule
  rw [hdu, hpt, hba]

theorem dupRule_resolved {df : DataFrame} {cid d : String}
    (hcid : find_similar_column df.cols "Customer ID" = some cid)
    (hd : find_similar_column df.cols "Date" = some d) :
    dupRule df = duplicate_billings df.rows cid d := by
  unfold dupRule
  rw [hcid, hd]

theorem serviceRule_resolved {df : DataFrame} {st : String}
    (hst : find_similar_column df.cols "Service Type" = some st) :
    serviceRule df = invalid_service_types_rule df.rows st := by
  unfold serviceRule
  rw [hst]

theorem suspendedRule_resolved {df : DataFrame} {ac ps : String}
    (hac : find_similar_column df.cols "Account Status" = some ac)
    (hps : find_similar_column df.cols "Payment Status" = some ps) :
    suspendedRule df = suspended_accounts df.rows ac ps := by
  unfold suspendedRule
  rw [hac, hps]

/-- When the three High or Low Billings roles resolve and the run succeeds,
a well-typed row is in that category iff the expected-amount check fails. -/
theorem mem_highLow_iff {df : DataFrame} {c : String} {rep : AnomalyReport}
    {du pt ba : String}
    (hdu : find_similar_column df.cols "Data Usage (GB)" = some du)
    (hpt : find_similar_column df.cols "Plan Type" = some pt)
    (hba : find_similar_column df.cols "Billing Amount" = some ba)
    (hok : detect_anomalies df c = Except.ok rep)
    {r : Record} (hr : r ∈ df.rows) {u b : ℚ} {p : String}
    (hu : getVal r du = some (Val.num u)) (hp : getVal r pt = some (Val.str p))
    (hb : getVal r ba = some (Val.num b)) :
    r ∈ rep.highOrLowBillings ↔ (0.01 : ℚ) < |b - u * ratesGet (capitalize p)| := by
  obtain ⟨hl, ist, hhl, hist, rfl⟩ := (detect_ok_iff df c rep).mp hok
  rw [highLowRule_resolved hdu hpt hba] at hhl
  have hmem := filterE_ok_mem hhl r
  have hrow : highLowRow du pt ba r =
      Except.ok (decide ((0.01 : ℚ) < |b - u * ratesGet (capitalize p)|)) := by
    unfold highLowRow
    rw [hu, hp, hb]
  show r ∈ hl ↔ _
  rw [hmem, hrow]
  simp [hr]

/-- When the Service Type role resolves and the run succeeds, membership in
the Invalid Service Types category is decided by the value of the row being in
the computed list of invalid observed values. -/
theorem mem_invalid_iff {df : DataFrame} {c : String} {rep : AnomalyReport}
    {st : String}
    (hst : find_similar_column df.cols "Service Type" = some st)
    (hok : detect_anomalies df c = Except.ok rep) :
    ∃ invalid,
      filterE serviceInvalid (uniqueList (df.rows.map (fun r => getVal r st))) =
        Except.ok invalid ∧
      ∀ r, r ∈ rep.invalidServiceTypes ↔ r ∈ df.rows ∧ getVal r st ∈ invalid := by
  obtain ⟨hl, ist, hhl, hist, rfl⟩ := (detect_ok_iff df c rep).mp hok
  rw [serviceRule_resolved hst] at hist
  unfold invalid_service_types_rule at hist
  cases hfe : filterE serviceInvalid (uniqueList (df.rows.map (fun r => getVal r st))) with
  | error e => rw [hfe] at hist; cases hist
  | ok invalid =>
    rw [hfe] at hist
    have hist2 : ist = df.rows.filter (fun r => decide (getVal r st ∈ invalid)) := by
      simpa using hist.symm
    refine ⟨invalid, rfl, fun r => ?_⟩
    show r ∈ ist ↔ _
    rw [hist2, List.mem_filter]
    simp

/-! Evaluation of `detect_anomalies` on the example dataset. -/

theorem highLowRow_exR1 :
    highLowRow "Data Usage (GB)" "Plan Type" "Billing Amount" exR1 = Except.ok false := by
  simp [highLowRow, getVal, exR1, ratesGet, rates, capitalize]
  norm_num

theorem highLowRow_exR2 :
    highLowRow "Data Usage (GB)" "Plan Type" "Billing Amount" exR2 = Except.ok true := by
  simp [highLowRow, getVal, exR2, ratesGet, rates, capitalize]
  rw [show |(12 : ℚ) - 50 * 0.20| = 2 by norm_num [abs_of_nonneg]]
  norm_num

theorem highLowRow_exR3 :
    highLowRow "Data Usage (GB)" "Plan Type" "Billing Amount" exR3 = Except.ok false := by
  simp [highLowRow, getVal, exR3, ratesGet, rates, capitalize]
  rw [abs_of_nonneg] <;> norm_num

theorem highLowRule_exDf : highLowRule exDf = Except.ok [exR2] := by
  show high_or_low_billings exDf.rows "Data Usage (GB)" "Plan Type" "Billing Amount" = _
  simp [high_or_low_billings, exDf, filterE, highLowRow_exR1, highLowRow_exR2, highLowRow_exR3]

theorem detect_ex : detect_anomalies exDf "criteria" = Except.ok exRep := by
  simp [detect_anomalies, highLowRule_exDf]
  rfl

/-! The claims. -/

/-- C1: with the DataUsage, PlanType and BillingAmount roles all resolved,
a well-typed record is flagged as High or Low Billing iff
`|billingAmount - dataUsage * rate| > 0.01`, where the rate is 0.20 for plan
"Basic", 0.15 for "Standard", 0.10 for "Ultra" after capitalizing the plan
name (first letter upper-cased, rest lower-cased), and 0 otherwise. -/
theorem high_low_billings_spec (df : DataFrame) (c : String) (rep : AnomalyReport)
    (du pt ba : String)
    (hdu : find_similar_column df.cols "Data Usage (GB)" = some du)
    (hpt : find_similar_column df.cols "Plan Type" = some pt)
    (hba : find_similar_column df.cols "Billing Amount" = some ba)
    (hok : detect_anomalies df c = Except.ok rep) :
    ∀ r ∈ df.rows, ∀ (u b : ℚ) (p : String),
      getVal r du = some (Val.num u) → getVal r pt = some (Val.str p) →
      getVal r ba = some (Val.num b) →
      (r ∈ rep.highOrLowBillings ↔
        (0.01 : ℚ) < |b - u * (if capitalize p = "Basic" then 0.20
          else if capitalize p = "Standard" then 0.15
          else if capitalize p = "Ultra" then 0.10 else 0)|) := by
  intro r hr u b p hu hp hb
  rw [mem_highLow_iff hdu hpt hba hok hr hu hp hb, ratesGet_eq]

theorem high_low_billings_spec_witness :
    exR2 ∈ exRep.highOrLowBillings ↔
      (0.01 : ℚ) < |12 - 50 * (if capitalize "Basic" = "Basic" then 0.20
        else if capitalize "Basic" = "Standard" then 0.15
        else if capitalize "Basic" = "Ultra" then 0.10 else 0)| :=
  high_low_billings_spec exDf "criteria" exRep _ _ _ rfl rfl rfl detect_ex exR2
    (by simp [exDf]) 50 12 "Basic" rfl rfl rfl

/-- C2: with the CustomerID and Date roles both resolved, any two records
at distinct positions with an identical (CustomerID value, Date value) pair
both appear in the Duplicate Billings category, and a record whose pair
occurs at no other position never appears there. -/
theorem duplicate_billings_spec (df : DataFrame) (c : String) (rep : AnomalyReport)
    (cid d : String)
    (hcid : find_similar_column df.cols "Customer ID" = some cid)
    (hd : find_similar_column df.cols "Date" = some d)
    (hok : detect_anomalies df c = Except.ok rep) :
    (∀ i j : Fin df.rows.length, i ≠ j →
      dupKey cid d (df.rows.get i) = dupKey cid d (df.rows.get j) →
      df.rows.get i ∈ rep.duplicateBillings ∧ df.rows.get j ∈ rep.duplicateBillings) ∧
    (∀ i : Fin df.rows.length,
      (∀ j : Fin df.rows.length, j ≠ i →
        dupKey cid d (df.rows.get j) ≠ dupKey cid d (df.rows.get i)) →
      df.rows.get i ∉ rep.duplicateBillings) := by
  obtain ⟨hl, ist, hhl, hist, rfl⟩ := (detect_ok_iff df c rep).mp hok
  have hdup : dupRule df = duplicate_billings df.rows cid d := dupRule_resolved hcid hd
  have hmem : ∀ r, r ∈ dupRule df ↔
      r ∈ df.rows ∧
        2 ≤ df.rows.countP (fun s => decide (dupKey cid d s = dupKey cid d r)) := by
    intro r
    rw [hdup]
    unfold duplicate_billings
    rw [List.mem_filter]
    simp
  constructor
  · intro i j hij hkey
    have hcount : ∀ k : Fin df.rows.length,
        dupKey cid d (df.rows.get k) = dupKey cid d (df.rows.get i) →
        2 ≤ df.rows.countP
          (fun s => decide (dupKey cid d s = dupKey cid d (df.rows.get k))) := by
      intro k hk
      rw [hk]
      refine two_le_countP_of_getElem _ df.rows i.val j.val i.isLt j.isLt
        (fun h => hij (Fin.ext h)) ?_ ?_
      · simp only [Fin.eta, decide_eq_true_eq]
      · simp only [Fin.eta, decide_eq_true_eq]
        exact hkey.symm
    constructor
    · exact (hmem _).mpr ⟨List.get_mem _ _ _, hcount i rfl⟩
    · exact (hmem _).mpr ⟨List.get_mem _ _ _, hcount j hkey.symm⟩
  · intro i huniq hin
    have h2 := ((hmem _).mp hin).2
    have h1 : df.rows.countP
        (fun s => decide (dupKey cid d s = dupKey cid d (df.rows.get i))) ≤ 1 := by
      refine countP_le_one_of_unique _ df.rows i.val i.isLt ?_
      intro j hj hji
      simp only [decide_eq_false_iff_not]
      exact huniq ⟨j, hj⟩ (fun h => hji (by simpa using congrArg Fin.val h))
    omega

theorem duplicate_billings_spec_witness :
    exDf.rows.get ⟨0, by decide⟩ ∈ exRep.duplicateBillings ∧
    exDf.rows.get ⟨1, by decide⟩ ∈ exRep.duplicateBillings :=
  (duplicate_billings_spec exDf "criteria" exRep _ _ rfl rfl detect_ex).1
    ⟨0, by decide⟩ ⟨1, by decide⟩ (by decide) rfl

/-- C3: with the ServiceType role resolved, a record whose service-type
value is case-insensitively "Data" or "Voice" is never flagged, any other
string value is always flagged, and records sharing the same service-type
value are flagged together. -/
theorem invalid_service_types_spec (df : DataFrame) (c : String) (rep : AnomalyReport)
    (st : String)
    (hst : find_similar_column df.cols "Service Type" = some st)
    (hok : detect_anomalies df c = Except.ok rep) :
    (∀ r ∈ df.rows, ∀ s, getVal r st = some (Val.str s) →
      (r ∈ rep.invalidServiceTypes ↔ ¬ (lowerStr s = "data" ∨ lowerStr s = "voice"))) ∧
    (∀ r r2, r ∈ df.rows → r2 ∈ df.rows → getVal r st = getVal r2 st →
      (r ∈ rep.invalidServiceTypes ↔ r2 ∈ rep.invalidServiceTypes)) := by
  obtain ⟨invalid, hfe, hchar⟩ := mem_invalid_iff hst hok
  constructor
  · intro r hr s hs
    rw [hchar r]
    have huniq : getVal r st ∈ uniqueList (df.rows.map (fun r2 => getVal r2 st)) := by
      rw [mem_uniqueList]
      exact List.mem_map_of_mem _ hr
    have hinv := filterE_ok_mem hfe (getVal r st)
    rw [hinv]
    have hsi : serviceInvalid (getVal r st) =
        Except.ok (decide (lowerStr s ∉ valid_service_types.map (fun v => lowerStr v))) := by
      rw [hs]; rfl
    rw [hsi]
    simp only [hr, huniq, true_and, Except.ok.injEq, decide_eq_true_eq]
    have hvals : valid_service_types.map (fun v => lowerStr v) = ["data", "voice"] := rfl
    rw [hvals]
    simp
  · intro r r2 hr hr2 hval
    rw [hchar r, hchar r2, hval]
    simp [hr, hr2]

theorem invalid_service_types_spec_witness :
    (exR3 ∈ exRep.invalidServiceTypes ↔
      ¬ (lowerStr "Fax" = "data" ∨ lowerStr "Fax" = "voice")) ∧
    (exR1 ∈ exRep.invalidServiceTypes ↔
      ¬ (lowerStr "Data" = "data" ∨ lowerStr "Data" = "voice")) :=
  ⟨(invalid_service_types_spec exDf "criteria" exRep _ rfl detect_ex).1 exR3
      (by simp [exDf]) "Fax" rfl,
   (invalid_service_types_spec exDf "criteria" exRep _ rfl detect_ex).1 exR1
      (by simp [exDf]) "Data" rfl⟩

/-- C4: with the AccountStatus and PaymentStatus roles both resolved, a
well-typed record is flagged as Billing for Suspended Account iff its
account status is case-insensitively "suspended" and its payment status is
case-insensitively "pending". -/
theorem suspended_accounts_spec (df : DataFrame) (c : String) (rep : AnomalyReport)
    (ac ps : String)
    (hac : find_similar_column df.cols "Account Status" = some ac)
    (hps : find_similar_column df.cols "Payment Status" = some ps)
    (hok : detect_anomalies df c = Except.ok rep) :
    ∀ r ∈ df.rows, ∀ (a p : String),
      getVal r ac = some (Val.str a) → getVal r ps = some (Val.str p) →
      (r ∈ rep.billingForSuspendedAccounts ↔
        (lowerStr a = "suspended" ∧ lowerStr p = "pending")) := by
  obtain ⟨hl, ist, hhl, hist, rfl⟩ := (detect_ok_iff df c rep).mp hok
  intro r hr a p ha hp
  show r ∈ suspendedRule df ↔ _
  rw [suspendedRule_resolved hac hps]
  unfold suspended_accounts
  rw [List.mem_filter]
  have h1 : strLowerEq (getVal r ac) "suspended" = (lowerStr a == "suspended") := by
    rw [ha]; rfl
  have h2 : strLowerEq (getVal r ps) "pending" = (lowerStr p == "pending") := by
    rw [hp]; rfl
  rw [h1, h2]
  simp [hr]

theorem suspended_accounts_spec_witness :
    (exR3 ∈ exRep.billingForSuspendedAccounts ↔
      (lowerStr "SUSPENDED" = "suspended" ∧ lowerStr "Pending" = "pending")) ∧
    (exR1 ∈ exRep.billingForSuspendedAccounts ↔
      (lowerStr "Active" = "suspended" ∧ lowerStr "Paid" = "pending")) :=
  ⟨suspended_accounts_spec exDf "criteria" exRep _ _ rfl rfl detect_ex exR3
      (by simp [exDf]) "SUSPENDED" "Pending" rfl rfl,
   suspended_accounts_spec exDf "criteria" exRep _ _ rfl rfl detect_ex exR1
      (by simp [exDf]) "Active" "Paid" rfl rfl⟩

/-- C5: a category whose required roles are not all resolved is an empty
sequence in a successful report, and a dataset on which the two fallible
rules are both skipped always yields a successful (non-error) report. -/
theorem skipped_rules_spec (df : DataFrame) (c : String) :
    (∀ rep, detect_anomalies df c = Except.ok rep →
      ((find_similar_column df.cols "Customer ID" = none ∨
        find_similar_column df.cols "Date" = none) → rep.duplicateBillings = []) ∧
      ((find_similar_column df.cols "Data Usage (GB)" = none ∨
        find_similar_column df.cols "Plan Type" = none ∨
        find_similar_column df.cols "Billing Amount" = none) →
        rep.highOrLowBillings = []) ∧
      (find_similar_column df.cols "Service Type" = none →
        rep.invalidServiceTypes = []) ∧
      ((find_similar_column df.cols "Account Status" = none ∨
        find_similar_column df.cols "Payment Status" = none) →
        rep.billingForSuspendedAccounts = [])) ∧
    (((find_similar_column df.cols "Data Usage (GB)" = none ∨
       find_similar_column df.cols "Plan Type" = none ∨
       find_similar_column df.cols "Billing Amount" = none) ∧
      find_similar_column df.cols "Service Type" = none) →
      ∃ rep, detect_anomalies df c = Except.ok rep) := by
  have hdup : (find_similar_column df.cols "Customer ID" = none ∨
      find_similar_column df.cols "Date" = none) → dupRule df = [] := by
    rintro (h | h) <;> unfold dupRule
    · rw [h]
    · rw [h]
      cases find_similar_column df.cols "Customer ID" <;> rfl
  have hhl0 : (find_similar_column df.cols "Data Usage (GB)" = none ∨
      find_similar_column df.cols "Plan Type" = none ∨
      find_similar_column df.cols "Billing Amount" = none) →
      highLowRule df = Except.ok [] := by
    rintro (h | h | h) <;> unfold highLowRule
    · rw [h]
    · rw [h]
      cases find_similar_column df.cols "Data Usage (GB)" <;> rfl
    · rw [h]
      cases find_similar_column df.cols "Data Usage (GB)" <;>
        cases find_similar_column df.cols "Plan Type" <;> rfl
  have hist0 : find_similar_column df.cols "Service Type" = none →
      serviceRule df = Except.ok [] := by
    intro h
    unfold serviceRule
    rw [h]
  have hsus : (find_similar_column df.cols "Account Status" = none ∨
      find_similar_column df.cols "Payment Status" = none) →
      suspendedRule df = [] := by
    rintro (h | h) <;> unfold suspendedRule
    · rw [h]
    · rw [h]
      cases find_similar_column df.cols "Account Status" <;> rfl
  constructor
  · intro rep hok
    obtain ⟨hl, ist, hhl, hist, rfl⟩ := (detect_ok_iff df c rep).mp hok
    refine ⟨fun h => hdup h, fun h => ?_, fun h => ?_, fun h => hsus h⟩
    · show hl = []
      rw [hhl0 h] at hhl
      exact (Except.ok.inj hhl).symm
    · show ist = []
      rw [hist0 h] at hist
      exact (Except.ok.inj hist).symm
  · rintro ⟨h1, h2⟩
    refine ⟨⟨dupRule df, [], [], suspendedRule df⟩, ?_⟩
    rw [(detect_ok_iff df c _)]
    exact ⟨[], [], hhl0 h1, hist0 h2, rfl⟩

theorem skipped_rules_spec_witness :
    (∃ rep, detect_anomalies noRoleDf "criteria" = Except.ok rep) ∧
    ({ duplicateBillings := [], highOrLowBillings := [], invalidServiceTypes := [],
       billingForSuspendedAccounts := [] } : AnomalyReport).duplicateBillings = [] :=
  ⟨(skipped_rules_spec noRoleDf "criteria").2 ⟨Or.inl rfl, rfl⟩,
   (((skipped_rules_spec noRoleDf "criteria").1
      ⟨[], [], [], []⟩ rfl).1 (Or.inl rfl))⟩

/-- C6: a malformed value in a comparison is fatal: a non-numeric billing
amount (or usage, or non-string plan type) aborts the run when the High or
Low Billings roles resolve, and a non-string service-type value aborts the
run when the ServiceType role resolves. -/
theorem malformed_value_fatal (df : DataFrame) (c : String) :
    (∀ du pt ba r,
      find_similar_column df.cols "Data Usage (GB)" = some du →
      find_similar_column df.cols "Plan Type" = some pt →
      find_similar_column df.cols "Billing Amount" = some ba →
      r ∈ df.rows → (∀ q : ℚ, getVal r ba ≠ some (Val.num q)) →
      ∃ e, detect_anomalies df c = Except.error e) ∧
    (∀ st r,
      find_similar_column df.cols "Service Type" = some st →
      r ∈ df.rows → (∀ s : String, getVal r st ≠ some (Val.str s)) →
      ∃ e, detect_anomalies df c = Except.error e) := by
  constructor
  · intro du pt ba r hdu hpt hba hr hbad
    have hrow : highLowRow du pt ba r = Except.error "TypeError" := by
      unfold highLowRow
      cases h1 : getVal r du with
      | none => rfl
      | some v1 =>
        cases v1 with
        | str s => rfl
        | num u =>
          cases h2 : getVal r pt with
          | none => rfl
          | some v2 =>
            cases v2 with
            | num q => rfl
            | str p =>
              cases h3 : getVal r ba with
              | none => rfl
              | some v3 =>
                cases v3 with
                | str s => rfl
                | num b => exact absurd h3 (hbad b)
    obtain ⟨e, he⟩ := filterE_error_of_mem hr hrow
    refine ⟨e, ?_⟩
    unfold detect_anomalies
    rw [highLowRule_resolved hdu hpt hba]
    unfold high_or_low_billings
    rw [he]
  · intro st r hst hr hbad
    have hval : serviceInvalid (getVal r st) = Except.error "AttributeError" := by
      unfold serviceInvalid
      cases h1 : getVal r st with
      | none => rfl
      | some v =>
        cases v with
        | num q => rfl
        | str s => exact absurd h1 (hbad s)
    have hmem : getVal r st ∈ uniqueList (df.rows.map (fun r2 => getVal r2 st)) := by
      rw [mem_uniqueList]
      exact List.mem_map_of_mem _ hr
    obtain ⟨e, he⟩ := filterE_error_of_mem hmem hval
    have hsvc : serviceRule df = Except.error e := by
      rw [serviceRule_resolved hst]
      unfold invalid_service_types_rule
      rw [he]
    unfold detect_anomalies
    cases hhl : highLowRule df with
    | error e2 => exact ⟨e2, rfl⟩
    | ok hl =>
      rw [hsvc]
      exact ⟨e, rfl⟩

theorem malformed_value_fatal_witness :
    (∃ e, detect_anomalies badBillingDf "criteria" = Except.error e) ∧
    (∃ e, detect_anomalies badServiceDf "criteria" = Except.error e) :=
  ⟨(malformed_value_fatal badBillingDf "criteria").1 _ _ _ badBillingRow rfl rfl rfl
      (List.mem_cons_self _ _) (fun q h => Val.noConfusion (Option.some.inj h)),
   (malformed_value_fatal badServiceDf "criteria").2 _ [("Service Type", Val.num 3)] rfl
      (List.mem_cons_self _ _) (fun s h => Val.noConfusion (Option.some.inj h))⟩

/-- C7 counterexample: in the example dataset, row `exR3` has the
unrecognized plan type "Gold" and a billing amount of 0.01, which is not 0,
yet the run succeeds without flagging it as High or Low Billing, because
0.01 is within the 0.01 tolerance of the forced expected amount 0. -/
theorem unrecognized_plan_counterexample :
    getVal exR3 "Plan Type" = some (Val.str "Gold") ∧
    capitalize "Gold" ≠ "Basic" ∧ capitalize "Gold" ≠ "Standard" ∧
    capitalize "Gold" ≠ "Ultra" ∧
    getVal exR3 "Billing Amount" = some (Val.num 0.01) ∧ (0.01 : ℚ) ≠ 0 ∧
    exR3 ∈ exDf.rows ∧
    detect_anomalies exDf "criteria" = Except.ok exRep ∧
    exR3 ∉ exRep.highOrLowBillings := by
  refine ⟨rfl, by decide, by decide, by decide, rfl, by norm_num, by simp [exDf],
    detect_ex, ?_⟩
  intro hmem
  simp only [exRep, List.mem_singleton, exR3, exR2] at hmem
  simp at hmem

/-- C7 (amended): with the three High or Low Billings roles resolved, a
well-typed record whose capitalized plan type is none of "Basic",
"Standard", "Ultra" is flagged iff `|billingAmount| > 0.01` — in
particular it is not flagged whenever `|billingAmount| ≤ 0.01`, not only
when the billing amount is exactly 0. -/
theorem unrecognized_plan_flagged_iff (df : DataFrame) (c : String)
    (rep : AnomalyReport) (du pt ba : String)
    (hdu : find_similar_column df.cols "Data Usage (GB)" = some du)
    (hpt : find_similar_column df.cols "Plan Type" = some pt)
    (hba : find_similar_column df.cols "Billing Amount" = some ba)
    (hok : detect_anomalies df c = Except.ok rep) :
    ∀ r ∈ df.rows, ∀ (u b : ℚ) (p : String),
      getVal r du = some (Val.num u) → getVal r pt = some (Val.str p) →
      getVal r ba = some (Val.num b) →
      capitalize p ≠ "Basic" → capitalize p ≠ "Standard" → capitalize p ≠ "Ultra" →
      (r ∈ rep.highOrLowBillings ↔ (0.01 : ℚ) < |b|) := by
  intro r hr u b p hu hp hb h1 h2 h3
  rw [mem_highLow_iff hdu hpt hba hok hr hu hp hb, ratesGet_eq,
    if_neg h1, if_neg h2, if_neg h3, mul_zero, sub_zero]

theorem unrecognized_plan_flagged_iff_witness :
    exR3 ∉ exRep.highOrLowBillings := by
  rw [unrecognized_plan_flagged_iff exDf "criteria" exRep _ _ _ rfl rfl rfl detect_ex
    exR3 (by simp [exDf]) 5 0.01 "Gold" rfl rfl rfl (by decide) (by decide) (by decide)]
  rw [abs_of_nonneg] <;> norm_num

/-- C8: the report is independent of the criteria text obtained from the
external text-generation service: for any dataset, any two criteria values
yield the same result. -/
theorem criteria_noninterference (df : DataFrame) (c1 c2 : String) :
    detect_anomalies df c1 = detect_anomalies df c2 := rfl

/-- C9: the column resolver returns exactly the first column whose name is
case-insensitively equal to the target, and `none` iff no column matches;
no other matching ever produces a result. -/
theorem find_similar_column_spec (columns : List String) (target : String) :
    (∀ c, find_similar_column columns target = some c ↔
      (lowerStr c = lowerStr target ∧
        ∃ pre post, columns = pre ++ c :: post ∧
          ∀ x ∈ pre, lowerStr x ≠ lowerStr target)) ∧
    (find_similar_column columns target = none ↔
      ∀ x ∈ columns, lowerStr x ≠ lowerStr target) := by
  constructor
  · intro c
    unfold find_similar_column
    rw [List.find?_eq_some]
    simp [beq_iff_eq]
  · unfold find_similar_column
    rw [List.find?_eq_none]
    simp [beq_iff_eq]

theorem find_similar_column_spec_witness :
    (find_similar_column ["Foo", "DATE"] "Date" = some "DATE" ↔
      (lowerStr "DATE" = lowerStr "Date" ∧
        ∃ pre post, ["Foo", "DATE"] = pre ++ "DATE" :: post ∧
          ∀ x ∈ pre, lowerStr x ≠ lowerStr "Date")) ∧
    (find_similar_column ["Foo"] "Date" = none ↔
      ∀ x ∈ ["Foo"], lowerStr x ≠ lowerStr "Date") :=
  ⟨(find_similar_column_spec ["Foo", "DATE"] "Date").1 "DATE",
   (find_similar_column_spec ["Foo"] "Date").2⟩

/-- C10: each category of a successful report is a sublist of the rows of
the dataset: the flagged records keep their relative dataset order and each is a
full original record with all its field values. -/
theorem report_order_and_fields (df : DataFrame) (c : String) (rep : AnomalyReport)
    (hok : detect_anomalies df c = Except.ok rep) :
    rep.duplicateBillings.Sublist df.rows ∧
    rep.highOrLowBillings.Sublist df.rows ∧
    rep.invalidServiceTypes.Sublist df.rows ∧
    rep.billingForSuspendedAccounts.Sublist df.rows := by
  obtain ⟨hl, ist, hhl, hist, rfl⟩ := (detect_ok_iff df c rep).mp hok
  refine ⟨?_, ?_, ?_, ?_⟩
  · show (dupRule df).Sublist df.rows
    unfold dupRule
    cases find_similar_column df.cols "Customer ID" <;>
      cases find_similar_column df.cols "Date" <;>
      first
        | exact List.nil_sublist _
        | exact List.filter_sublist _
  · show hl.Sublist df.rows
    unfold highLowRule at hhl
    cases h1 : find_similar_column df.cols "Data Usage (GB)" <;> rw [h1] at hhl
    case none =>
      have h2 : Except.ok ([] : List Record) = Except.ok hl := hhl
      rw [← Except.ok.inj h2]
      exact List.nil_sublist _
    case some du =>
      cases h2 : find_similar_column df.cols "Plan Type" <;> rw [h2] at hhl
      case none =>
        have h3 : Except.ok ([] : List Record) = Except.ok hl := hhl
        rw [← Except.ok.inj h3]
        exact List.nil_sublist _
      case some pt =>
        cases h3 : find_similar_column df.cols "Billing Amount" <;> rw [h3] at hhl
        case none =>
          have h4 : Except.ok ([] : List Record) = Except.ok hl := hhl
          rw [← Except.ok.inj h4]
          exact List.nil_sublist _
        case some ba =>
          exact filterE_ok_sublist hhl
  · show ist.Sublist df.rows
    cases h1 : find_similar_column df.cols "Service Type" with
    | none =>
      have h0 : serviceRule df = Except.ok [] := by unfold serviceRule; rw [h1]
      rw [h0] at hist
      rw [← Except.ok.inj hist]
      exact List.nil_sublist _
    | some st =>
      rw [serviceRule_resolved h1] at hist
      unfold invalid_service_types_rule at hist
      cases h2 : filterE serviceInvalid
          (uniqueList (df.rows.map (fun r => getVal r st))) with
      | error e => rw [h2] at hist; cases hist
      | ok invalid =>
        rw [h2] at hist
        have h3 : ist = df.rows.filter (fun r => decide (getVal r st ∈ invalid)) := by
          simpa using hist.symm
        rw [h3]
        exact List.filter_sublist _
  · show (suspendedRule df).Sublist df.rows
    unfold suspendedRule
    cases find_similar_column df.cols "Account Status" <;>
      cases find_similar_column df.cols "Payment Status" <;>
      first
        | exact List.nil_sublist _
        | exact List.filter_sublist _

theorem report_order_and_fields_witness :
    exRep.duplicateBillings.Sublist exDf.rows ∧
    exRep.highOrLowBillings.Sublist exDf.rows :=
  ⟨(report_order_and_fields exDf "criteria" exRep detect_ex).1,
   (report_order_and_fields exDf "criteria" exRep detect_ex).2.1⟩
